import Mathlib

/-!
# Verification of the cultivated-tv filter-to-query core

A shallow embedding of the discovery-dashboard core: the query builder and
client-side result reconciler (`services/tmdbService.ts`), the filter state
and its handlers (`App.tsx`), the watchlist store (`hooks/useWatchlist.ts`),
and the watchlist sort comparator (`App.tsx`).

JavaScript numbers are modelled as `ℚ` with exact arithmetic, strings as
Lean `String`, optional/undefined values as `Option`, and the fetch layer is
abstracted by passing the upstream response as an explicit argument.
-/

namespace CultivatedTV

/-- A TV show record as returned by the upstream API (`types.ts`, `TVShow`).
Field defaults are a notational convenience for building test records; the
API contract has every field present. -/
structure TVShow where
  id : Int := 0
  name : String := ""
  overview : String := ""
  poster_path : Option String := none
  backdrop_path : Option String := none
  vote_average : ℚ := 0
  vote_count : ℚ := 0
  first_air_date : String := ""
  genre_ids : List Int := []
  popularity : ℚ := 0
  original_language : String := ""
deriving DecidableEq, Repr

/-- An upstream response page (`types.ts`, `TMDbResponse`). -/
structure TMDbResponse where
  page : Int := 1
  results : List TVShow := []
  total_pages : Int := 1
  total_results : Int := 0
deriving DecidableEq, Repr

/-- Genre join mode (`'OR' | 'AND'` in the source; the UI labels these
ANY and ALL respectively). -/
inductive GenreMode
  | OR
  | AND
deriving DecidableEq, Repr

/-- The options record taken by `discoverShows` (`tmdbService.ts`,
`DiscoverOptions`). Optional TypeScript fields are `Option`; the optional
string fields that the code tests for truthiness keep their string type,
with `""` playing the role of a falsy value where noted. -/
structure DiscoverOptions where
  withGenres : List Int := []
  withoutGenres : List Int := []
  withOriginalLanguage : String := ""
  withPeople : Option String := none
  minVotes : ℚ := 0
  minRating : ℚ := 0
  minYear : Option Int := none
  maxYear : Option Int := none
  genreMode : Option GenreMode := none
  sortBy : String := ""
deriving DecidableEq, Repr

/-- Configuration constants from the `constants.ts` module, which is not
among the provided sources; the values are kept abstract. `SORT_BY` is the
default discover sort key; the `_STR` fields stand for
`String(FILTER_CONFIG.MIN_VOTES)` and `String(FILTER_CONFIG.MIN_RATING)`,
the stringified numeric defaults used to (re)initialize the raw inputs. -/
structure FilterConfig where
  SORT_BY : String := ""
  MIN_VOTES_STR : String := ""
  MIN_RATING_STR : String := ""
deriving DecidableEq, Repr

/-- The 1% safety-buffer factor (`tmdbService.ts`, `BUFFER_FACTOR`). -/
def BUFFER_FACTOR : ℚ := 0.99

/-- `Math.floor(options.minVotes * BUFFER_FACTOR)` (`tmdbService.ts`). -/
def targetVotes (minVotes : ℚ) : Int := ⌊minVotes * BUFFER_FACTOR⌋

/-- `options.minRating * BUFFER_FACTOR` (`tmdbService.ts`). -/
def targetRating (minRating : ℚ) : ℚ := minRating * BUFFER_FACTOR

/-- The query-string parameters `discoverShows` submits upstream, one typed
field per `queryParams` key (`tmdbService.ts`). `none` means the key is
omitted from the query. -/
structure DiscoverQuery where
  api_key : String
  sort_by : String
  vote_count_gte : Int
  vote_average_gte : ℚ
  page : Int
  language : String
  first_air_date_gte : Option String := none
  first_air_date_lte : Option String := none
  with_genres : Option String := none
  without_genres : Option String := none
  with_original_language : Option String := none
  with_people : Option String := none
deriving DecidableEq, Repr

/-- Builds the discover query parameters exactly as `discoverShows` does:
buffered thresholds, conditional year bounds (a year of `0` is falsy in the
source's `if (options.minYear)` test), separator-joined genre lists, and
truthiness-guarded language/person fields. -/
def discoverQuery (cfg : FilterConfig) (apiKey : String) (page : Int)
    (o : DiscoverOptions) : DiscoverQuery :=
  { api_key := apiKey
    sort_by := if o.sortBy = "" then cfg.SORT_BY else o.sortBy
    vote_count_gte := targetVotes o.minVotes
    vote_average_gte := targetRating o.minRating
    page := page
    language := "en-US"
    first_air_date_gte :=
      match o.minYear with
      | some y => if y = 0 then none else some (toString y ++ "-01-01")
      | none => none
    first_air_date_lte :=
      match o.maxYear with
      | some y => if y = 0 then none else some (toString y ++ "-12-31")
      | none => none
    with_genres :=
      if o.withGenres ≠ [] then
        some (String.intercalate
          (if o.genreMode = some GenreMode.AND then "," else "|")
          (o.withGenres.map toString))
      else none
    without_genres :=
      if o.withoutGenres ≠ [] then
        some (String.intercalate "," (o.withoutGenres.map toString))
      else none
    with_original_language :=
      if o.withOriginalLanguage = "" then none else some o.withOriginalLanguage
    with_people :=
      match o.withPeople with
      | some p => if p = "" then none else some p
      | none => none }

/-- The client-side reconciliation predicate applied to each returned show
(`tmdbService.ts`, the `data.results.filter` callback): reject when the
vote count is below the buffered vote target, then when the rating is below
the buffered rating target. -/
def acceptShow (tv : Int) (tr : ℚ) (show_ : TVShow) : Bool :=
  if show_.vote_count < (tv : ℚ) then false
  else if show_.vote_average < tr then false
  else true

/-- `discoverShows`, with the network abstracted: given the upstream
response for the built query, returns the submitted query together with the
response after the client-side reconciliation filter. -/
def discoverShows (cfg : FilterConfig) (apiKey : String) (page : Int)
    (o : DiscoverOptions) (resp : TMDbResponse) : DiscoverQuery × TMDbResponse :=
  (discoverQuery cfg apiKey page o,
   { resp with results :=
      resp.results.filter (acceptShow (targetVotes o.minVotes) (targetRating o.minRating)) })

/-- `searchShows`, with the network abstracted: the upstream search response
is returned as-is — no client-side filtering of any kind. The credential,
query text and page parameterize only the request URL. -/
def searchShows (_apiKey _query : String) (_page : Int) (resp : TMDbResponse) :
    TMDbResponse :=
  resp

/-! ## The JavaScript `Number()` coercion (decimal fragment)

The debounce effect in `App.tsx` commits the raw numeric strings with
`Number(...)` guarded by `isNaN`. We model the decimal fragment of the
`Number` coercion: optional surrounding whitespace, an optional sign, an
integer part and/or a fractional part, and an optional decimal exponent.
`none` stands for `NaN`. (Hexadecimal/binary literals and `Infinity` are
outside the fragment; no claim depends on them.) -/

/-- Whitespace characters stripped by the `Number` coercion. -/
def isWs (c : Char) : Bool :=
  c = ' ' ∨ c = '\t' ∨ c = '\n' ∨ c = '\r'

/-- Strip leading and trailing whitespace from a character list. -/
def trimWs (cs : List Char) : List Char :=
  ((cs.dropWhile isWs).reverse.dropWhile isWs).reverse

/-- Split a character list into its longest digit run and the remainder. -/
def takeDigits : List Char → List Char × List Char
  | [] => ([], [])
  | c :: cs =>
    if c.isDigit then
      let p := takeDigits cs
      (c :: p.1, p.2)
    else ([], c :: cs)

/-- Decimal value of a digit run. -/
def digitsToNat (ds : List Char) : Nat :=
  ds.foldl (fun a c => a * 10 + (c.toNat - 48)) 0

/-- Parse the exponent suffix after `e`/`E`: optional sign and a digit run
consuming the whole remainder. -/
def parseExponent (cs : List Char) : Option Int :=
  let p : Int × List Char :=
    match cs with
    | '+' :: r => (1, r)
    | '-' :: r => (-1, r)
    | r => (1, r)
  let d := takeDigits p.2
  if d.1.isEmpty ∨ ¬ d.2.isEmpty then none
  else some (p.1 * (digitsToNat d.1 : Int))

/-- Parse a non-empty trimmed character list as a decimal number literal. -/
def jsNumberChars (cs : List Char) : Option ℚ :=
  let s : ℚ × List Char :=
    match cs with
    | '+' :: r => (1, r)
    | '-' :: r => (-1, r)
    | r => (1, r)
  let ip := takeDigits s.2
  let fr : List Char × List Char :=
    match ip.2 with
    | '.' :: r => takeDigits r
    | r => ([], r)
  if ip.1.isEmpty ∧ fr.1.isEmpty then none
  else
    let mant : ℚ := (digitsToNat ip.1 : ℚ) + (digitsToNat fr.1 : ℚ) / ((10 : ℚ) ^ fr.1.length)
    match fr.2 with
    | [] => some (s.1 * mant)
    | 'e' :: r => (parseExponent r).map (fun e => s.1 * mant * (10 : ℚ) ^ e)
    | 'E' :: r => (parseExponent r).map (fun e => s.1 * mant * (10 : ℚ) ^ e)
    | _ => none

/-- `Number(s)` on the decimal fragment: whitespace-only strings coerce to
`0`, otherwise the trimmed text must be a decimal literal; `none` is `NaN`. -/
def jsNumber (s : String) : Option ℚ :=
  let t := trimWs s.data
  if t.isEmpty then some 0 else jsNumberChars t

/-- One raw numeric filter commit, from the debounce effect in `App.tsx`:
`raw === '' ? 0 : Number(raw)` followed by `isNaN(v) ? 0 : v`. -/
def commitNum (raw : String) : ℚ :=
  (if raw = "" then some 0 else jsNumber raw).getD 0

/-! ## Application filter state and its handlers (`App.tsx`) -/

/-- The two top-level views. -/
inductive ViewMode
  | discover
  | watchlist
deriving DecidableEq, Repr

/-- The selected person filter value (`{id, name}` in the source). -/
structure Person where
  id : Int
  name : String
deriving DecidableEq, Repr

/-- The debounced, committed numeric filters (`debouncedFilters` state). -/
structure CommittedFilters where
  minVotes : ℚ
  minRating : ℚ
  minYear : Int
  maxYear : Int
deriving DecidableEq, Repr

/-- The filter-relevant `useState` pieces of the `App` component, gathered
into one record. Raw numeric inputs are strings, as in the source. -/
structure AppState where
  viewMode : ViewMode
  page : Int
  includedGenres : List Int
  excludedGenres : List Int
  genreMode : GenreMode
  selectedPerson : Option Person
  minVotes : String
  minRating : String
  language : String
  yearRange : Int × Int
  sortBy : String
  watchlistSortBy : String
  searchQuery : String
  debouncedSearchQuery : String
  debouncedFilters : CommittedFilters
deriving DecidableEq, Repr

/-- `handleGenreToggle`: included → excluded, excluded → unset, unset →
included; every branch also resets the page to 1. -/
def handleGenreToggle (id : Int) (s : AppState) : AppState :=
  if id ∈ s.includedGenres then
    { s with includedGenres := s.includedGenres.filter (fun g => g != id)
             excludedGenres := s.excludedGenres ++ [id]
             page := 1 }
  else if id ∈ s.excludedGenres then
    { s with excludedGenres := s.excludedGenres.filter (fun g => g != id)
             page := 1 }
  else
    { s with includedGenres := s.includedGenres ++ [id]
             page := 1 }

/-- `clearGenres`: empties both genre sets, clears the person filter, and
resets the page. -/
def clearGenres (s : AppState) : AppState :=
  { s with includedGenres := []
           excludedGenres := []
           selectedPerson := none
           page := 1 }

/-- `toggleGenreMode`: flips OR/AND and resets the page. -/
def toggleGenreMode (s : AppState) : AppState :=
  { s with genreMode := if s.genreMode = GenreMode.OR then GenreMode.AND else GenreMode.OR
           page := 1 }

/-- `resetNumericFilters`: restores the stringified numeric defaults and the
full year range, and resets the page. -/
def resetNumericFilters (cfg : FilterConfig) (minYearLimit maxYearLimit : Int)
    (s : AppState) : AppState :=
  { s with minRating := cfg.MIN_RATING_STR
           minVotes := cfg.MIN_VOTES_STR
           yearRange := (minYearLimit, maxYearLimit)
           page := 1 }

/-- The discover sort selector callback: `setSortBy(val); setPage(1)`. -/
def selectSort (val : String) (s : AppState) : AppState :=
  { s with sortBy := val, page := 1 }

/-- The language selector callback: `setLanguage(code); setPage(1)`. -/
def selectLanguage (code : String) (s : AppState) : AppState :=
  { s with language := code, page := 1 }

/-- The active-person pill's click handler: `setSelectedPerson(null)` — and
nothing else. -/
def removeSelectedPerson (s : AppState) : AppState :=
  { s with selectedPerson := none }

/-- The search debounce effect firing: commits the raw search text and, in
discover mode only, resets the page. -/
def commitSearch (s : AppState) : AppState :=
  let s1 := { s with debouncedSearchQuery := s.searchQuery }
  if s.viewMode = ViewMode.discover then { s1 with page := 1 } else s1

/-- The numeric/year debounce effect firing: commits both numeric strings
via the `Number`/`isNaN` pipeline plus the year range and, in discover mode
only, resets the page. -/
def commitNumericFilters (s : AppState) : AppState :=
  let s1 := { s with debouncedFilters :=
    { minVotes := commitNum s.minVotes
      minRating := commitNum s.minRating
      minYear := s.yearRange.1
      maxYear := s.yearRange.2 } }
  if s.viewMode = ViewMode.discover then { s1 with page := 1 } else s1

/-- The Next Page button: `setPage(p => p + 1)`. -/
def goNextPage (s : AppState) : AppState :=
  { s with page := s.page + 1 }

/-- The Previous button: `setPage(p => Math.max(1, p - 1))`. -/
def goPrevPage (s : AppState) : AppState :=
  { s with page := max 1 (s.page - 1) }

/-- The remote request `loadData` issues: either a free-text search (query
text, page, credential) or a discover query. -/
inductive QuerySpec
  | search (apiKey : String) (query : String) (page : Int)
  | discover (q : DiscoverQuery)
deriving DecidableEq, Repr

/-- `loadData`'s request construction: no request without a credential or in
watchlist mode; with a non-empty debounced search query a text search that
ignores every filter; otherwise a discover query built from the state. -/
def loadData (cfg : FilterConfig) (apiKey : String) (s : AppState) : Option QuerySpec :=
  if apiKey = "" ∨ s.viewMode = ViewMode.watchlist then none
  else if s.debouncedSearchQuery ≠ "" then
    some (QuerySpec.search apiKey s.debouncedSearchQuery s.page)
  else
    some (QuerySpec.discover (discoverQuery cfg apiKey s.page
      { withGenres := s.includedGenres
        withoutGenres := s.excludedGenres
        withOriginalLanguage := s.language
        withPeople := s.selectedPerson.map (fun p => toString p.id)
        minVotes := s.debouncedFilters.minVotes
        minRating := s.debouncedFilters.minRating
        minYear := some s.debouncedFilters.minYear
        maxYear := some s.debouncedFilters.maxYear
        genreMode := some s.genreMode
        sortBy := s.sortBy }))

/-! ## Watchlist store (`hooks/useWatchlist.ts`) and sort (`App.tsx`)

Watchlist items come back from `JSON.parse` of persisted local storage with
no validation, so at runtime any field may be absent even though the
TypeScript type marks most of them required; the sort comparator itself
guards only some fields with `|| 0`. We therefore model the stored item's
fields as `Option`, with `none` standing for an absent/`undefined` field. -/

/-- A persisted watchlist item (`types.ts`, `WatchlistItem`), as it can
actually occur after deserialization. -/
structure WatchlistItem where
  id : Int := 0
  name : String := ""
  first_air_date : Option String := none
  vote_average : Option ℚ := none
  vote_count : Option ℚ := none
  popularity : Option ℚ := none
  addedAt : Option ℚ := none
  bingeHours : Option ℚ := none
deriving DecidableEq, Repr

/-- The `newItem` record `addToWatchlist` builds by spreading a `TVShow`
and adding `addedAt`/`bingeHours` (`now` models `Date.now()`). -/
def toWatchlistItem (show_ : TVShow) (now : ℚ) (bingeHours : Option ℚ) : WatchlistItem :=
  { id := show_.id
    name := show_.name
    first_air_date := some show_.first_air_date
    vote_average := some show_.vote_average
    vote_count := some show_.vote_count
    popularity := some show_.popularity
    addedAt := some now
    bingeHours := bingeHours }

/-- `addToWatchlist`: prepend the new item only when no entry with the same
id exists. The boolean records whether the collection was written (and the
update notification dispatched); `false` means the call was a no-op. -/
def addToWatchlist (watchlist : List WatchlistItem) (show_ : TVShow) (now : ℚ)
    (bingeHours : Option ℚ) : List WatchlistItem × Bool :=
  if watchlist.any (fun i => i.id == show_.id) then (watchlist, false)
  else (toWatchlistItem show_ now bingeHours :: watchlist, true)

/-- `removeFromWatchlist`: drop every entry with the given id. -/
def removeFromWatchlist (watchlist : List WatchlistItem) (id : Int) :
    List WatchlistItem :=
  watchlist.filter (fun i => i.id != id)

/-! ### Date parsing for the first-air-date sort key

`new Date(a.first_air_date).getTime()` on the `YYYY-MM-DD` strings the API
supplies parses the ISO calendar date as UTC midnight; any other string (or
an absent field) yields an invalid date whose time value is `NaN`. We model
the ISO calendar-date format: milliseconds since the Unix epoch on success,
`none` for `NaN`. -/

/-- Split a character list at `-` separators. -/
def splitDashAux : List Char → List Char → List (List Char)
  | [], cur => [cur.reverse]
  | c :: rest, cur =>
    if c = '-' then cur.reverse :: splitDashAux rest []
    else splitDashAux rest (c :: cur)

/-- Leap-year test of the proleptic Gregorian calendar. -/
def isLeap (y : Nat) : Bool :=
  (y % 4 = 0 ∧ y % 100 ≠ 0) ∨ y % 400 = 0

/-- Days in a month of the proleptic Gregorian calendar. -/
def daysInMonth (y m : Nat) : Nat :=
  if m = 2 then (if isLeap y then 29 else 28)
  else if m = 4 ∨ m = 6 ∨ m = 9 ∨ m = 11 then 30
  else 31

/-- Days from the Unix epoch (1970-01-01) to the given civil date, negative
for earlier dates. -/
def daysFromCivil (y m d : Nat) : Int :=
  let yAdj : Int := if m ≤ 2 then (y : Int) - 1 else (y : Int)
  let era : Int := (if 0 ≤ yAdj then yAdj else yAdj - 399) / 400
  let yoe : Int := yAdj - era * 400
  let mp : Int := if 2 < m then (m : Int) - 3 else (m : Int) + 9
  let doy : Int := (153 * mp + 2) / 5 + (d : Int) - 1
  let doe : Int := yoe * 365 + yoe / 4 - yoe / 100 + doy
  era * 146097 + doe - 719468

/-- Parse a `YYYY-MM-DD` string to milliseconds since the epoch; `none` for
anything else (the invalid-date / `NaN` case). -/
def parseDateMs (s : String) : Option ℚ :=
  match splitDashAux s.data [] with
  | [ys, ms, ds] =>
    if ys.length = 4 ∧ ms.length = 2 ∧ ds.length = 2
        ∧ ys.all Char.isDigit ∧ ms.all Char.isDigit ∧ ds.all Char.isDigit then
      let y := digitsToNat ys
      let m := digitsToNat ms
      let d := digitsToNat ds
      if 1 ≤ m ∧ m ≤ 12 ∧ 1 ≤ d ∧ d ≤ daysInMonth y m then
        some ((daysFromCivil y m d : ℚ) * 86400000)
      else none
    else none
  | _ => none

/-- `new Date(x).getTime()` for a possibly-absent date string. -/
def dateMs : Option String → Option ℚ
  | none => none
  | some s => parseDateMs s

/-! ### The watchlist sort comparator -/

/-- The value `valA`/`valB` the comparator reads for a given sort field:
`addedAt`, `bingeHours` and the parsed date are guarded with `|| 0`
(so an absent value — and an unparseable date — becomes `0`), while
`vote_average`, `vote_count` and `popularity` are read bare and may remain
`undefined` (`none`); an unrecognized field leaves the value `undefined`. -/
def fieldValue (field : String) (x : WatchlistItem) : Option ℚ :=
  if field = "addedAt" then some (x.addedAt.getD 0)
  else if field = "bingeHours" then some (x.bingeHours.getD 0)
  else if field = "first_air_date" then some ((dateMs x.first_air_date).getD 0)
  else if field = "vote_average" then x.vote_average
  else if field = "vote_count" then x.vote_count
  else if field = "popularity" then x.popularity
  else none

/-- JavaScript `>` on possibly-undefined numbers: any comparison with
`undefined` is false. -/
def jsGt : Option ℚ → Option ℚ → Bool
  | some a, some b => a > b
  | _, _ => false

/-- JavaScript `<` on possibly-undefined numbers: any comparison with
`undefined` is false. -/
def jsLt : Option ℚ → Option ℚ → Bool
  | some a, some b => a < b
  | _, _ => false

/-- The sort comparator body from `sortedWatchlist`, with `field` and
`direction` already destructured from `watchlistSortBy.split('.')`:
ascending returns `valA > valB ? 1 : -1`, anything else returns
`valA < valB ? 1 : -1`. -/
def watchCompareParts (field direction : String) (a b : WatchlistItem) : Int :=
  let valA := fieldValue field a
  let valB := fieldValue field b
  if direction = "asc" then (if jsGt valA valB then 1 else -1)
  else (if jsLt valA valB then 1 else -1)

/-- Split a character list at `.` separators (for `split('.')`). -/
def splitDotAux : List Char → List Char → List (List Char)
  | [], cur => [cur.reverse]
  | c :: rest, cur =>
    if c = '.' then cur.reverse :: splitDotAux rest []
    else splitDotAux rest (c :: cur)

/-- The full comparator: destructure `watchlistSortBy.split('.')` into field
and direction (a missing direction behaves like `undefined`, which fails the
`=== 'asc'` test exactly as `""` does) and compare. -/
def watchCompare (sortBy : String) (a b : WatchlistItem) : Int :=
  match splitDotAux sortBy.data [] with
  | [] => watchCompareParts "" "" a b
  | [f] => watchCompareParts (String.mk f) "" a b
  | f :: d :: _ => watchCompareParts (String.mk f) (String.mk d) a b

/-! ## Concrete test states -/

/-- A concrete app state mirroring `App`'s initial state (with the
config-dependent strings instantiated), used as a base for test vectors. -/
def emptyFiltersState : AppState :=
  { viewMode := ViewMode.discover
    page := 1
    includedGenres := []
    excludedGenres := []
    genreMode := GenreMode.OR
    selectedPerson := none
    minVotes := "100"
    minRating := "6"
    language := "en"
    yearRange := (1900, 2031)
    sortBy := "first_air_date.desc"
    watchlistSortBy := "addedAt.desc"
    searchQuery := ""
    debouncedSearchQuery := ""
    debouncedFilters := ⟨100, 6, 1900, 2031⟩ }

/-! ## Genre toggle invariants -/

/-- No genre id sits in both the included and the excluded set. -/
def genresDisjoint (s : AppState) : Prop :=
  ∀ g : Int, g ∈ s.includedGenres → g ∉ s.excludedGenres

theorem filter_bne_eq_self (l : List Int) (x : Int) (h : x ∉ l) :
    l.filter (fun g => g != x) = l := by
  induction l with
  | nil => rfl
  | cons a t ih =>
    simp only [List.mem_cons, not_or] at h
    have ha : (a != x) = true := by
      simp only [bne_iff_ne, ne_eq]
      exact fun e => h.1 e.symm
    simp [List.filter_cons, ha, ih h.2]

theorem handleGenreToggle_disjoint {s : AppState} (h : genresDisjoint s) (id : Int) :
    genresDisjoint (handleGenreToggle id s) := by
  intro g hg hx
  by_cases h1 : id ∈ s.includedGenres
  · simp only [handleGenreToggle, if_pos h1] at hg hx
    simp only [List.mem_filter, bne_iff_ne, ne_eq] at hg
    simp only [List.mem_append, List.mem_singleton] at hx
    rcases hx with hx | hx
    · exact h g hg.1 hx
    · exact hg.2 hx
  · by_cases h2 : id ∈ s.excludedGenres
    · simp only [handleGenreToggle, if_neg h1, if_pos h2] at hg hx
      simp only [List.mem_filter, bne_iff_ne, ne_eq] at hx
      exact h g hg hx.1
    · simp only [handleGenreToggle, if_neg h1, if_neg h2] at hg hx
      simp only [List.mem_append, List.mem_singleton] at hg
      rcases hg with hg | hg
      · exact h g hg hx
      · exact h2 (hg ▸ hx)

theorem foldl_toggle_disjoint (ids : List Int) (s : AppState) (h : genresDisjoint s) :
    genresDisjoint (ids.foldl (fun t i => handleGenreToggle i t) s) := by
  induction ids generalizing s with
  | nil => exact h
  | cons a t ih => exact ih _ (handleGenreToggle_disjoint h a)

theorem toggle_unset_inc (s : AppState) (id : Int) (h1 : id ∉ s.includedGenres)
    (h2 : id ∉ s.excludedGenres) :
    (handleGenreToggle id s).includedGenres = s.includedGenres ++ [id] := by
  simp [handleGenreToggle, h1, h2]

theorem toggle_unset_exc (s : AppState) (id : Int) (h1 : id ∉ s.includedGenres)
    (h2 : id ∉ s.excludedGenres) :
    (handleGenreToggle id s).excludedGenres = s.excludedGenres := by
  simp [handleGenreToggle, h1, h2]

theorem toggle_included_inc (s : AppState) (id : Int) (h1 : id ∈ s.includedGenres) :
    (handleGenreToggle id s).includedGenres =
      s.includedGenres.filter (fun g => g != id) := by
  simp [handleGenreToggle, h1]

theorem toggle_included_exc (s : AppState) (id : Int) (h1 : id ∈ s.includedGenres) :
    (handleGenreToggle id s).excludedGenres = s.excludedGenres ++ [id] := by
  simp [handleGenreToggle, h1]

theorem toggle_excluded_inc (s : AppState) (id : Int) (h1 : id ∉ s.includedGenres)
    (h2 : id ∈ s.excludedGenres) :
    (handleGenreToggle id s).includedGenres = s.includedGenres := by
  simp [handleGenreToggle, h1, h2]

theorem toggle_excluded_exc (s : AppState) (id : Int) (h1 : id ∉ s.includedGenres)
    (h2 : id ∈ s.excludedGenres) :
    (handleGenreToggle id s).excludedGenres =
      s.excludedGenres.filter (fun g => g != id) := by
  simp [handleGenreToggle, h1, h2]

/-- C3: starting from empty sets, any sequence of genre toggles keeps the
included and excluded sets disjoint; and from the unset state, one toggle
includes the id, a second moves it to excluded, and a third restores both
sets exactly (unset → included → excluded → unset). -/
theorem c3_main (s0 : AppState) (hinc : s0.includedGenres = [])
    (ids : List Int) (s : AppState) (id : Int)
    (h1 : id ∉ s.includedGenres) (h2 : id ∉ s.excludedGenres) :
    genresDisjoint (ids.foldl (fun t i => handleGenreToggle i t) s0) ∧
    (id ∈ (handleGenreToggle id s).includedGenres ∧
      id ∉ (handleGenreToggle id s).excludedGenres) ∧
    (id ∉ (handleGenreToggle id (handleGenreToggle id s)).includedGenres ∧
      id ∈ (handleGenreToggle id (handleGenreToggle id s)).excludedGenres) ∧
    (handleGenreToggle id (handleGenreToggle id (handleGenreToggle id s))).includedGenres
        = s.includedGenres ∧
    (handleGenreToggle id (handleGenreToggle id (handleGenreToggle id s))).excludedGenres
        = s.excludedGenres := by
  have hd0 : genresDisjoint s0 := by
    intro g hg
    rw [hinc] at hg
    cases hg
  have e1i := toggle_unset_inc s id h1 h2
  have e1x := toggle_unset_exc s id h1 h2
  have m1 : id ∈ (handleGenreToggle id s).includedGenres := by
    rw [e1i]
    simp
  have e2i : (handleGenreToggle id (handleGenreToggle id s)).includedGenres
      = s.includedGenres := by
    rw [toggle_included_inc _ id m1, e1i]
    simp [List.filter_append, filter_bne_eq_self _ _ h1]
  have e2x : (handleGenreToggle id (handleGenreToggle id s)).excludedGenres
      = s.excludedGenres ++ [id] := by
    rw [toggle_included_exc _ id m1, e1x]
  have m2i : id ∉ (handleGenreToggle id (handleGenreToggle id s)).includedGenres := by
    rw [e2i]
    exact h1
  have m2x : id ∈ (handleGenreToggle id (handleGenreToggle id s)).excludedGenres := by
    rw [e2x]
    simp
  have e3i : (handleGenreToggle id (handleGenreToggle id (handleGenreToggle id
      s))).includedGenres = s.includedGenres := by
    rw [toggle_excluded_inc _ id m2i m2x, e2i]
  have e3x : (handleGenreToggle id (handleGenreToggle id (handleGenreToggle id
      s))).excludedGenres = s.excludedGenres := by
    rw [toggle_excluded_exc _ id m2i m2x, e2x]
    simp [List.filter_append, filter_bne_eq_self _ _ h2]
  refine ⟨foldl_toggle_disjoint ids s0 hd0, ⟨m1, ?_⟩, ⟨m2i, m2x⟩, e3i, e3x⟩
  rw [e1x]
  exact h2

/-- C3 witness: concrete run — toggling 10759 twice and 16 once from the
initial state keeps the sets disjoint, and the unset→included→excluded→unset
cycle holds for genre 35. -/
theorem c3_witness :
    genresDisjoint ([10759, 16, 10759].foldl (fun t i => handleGenreToggle i t)
      emptyFiltersState) ∧
    (35 ∈ (handleGenreToggle 35 emptyFiltersState).includedGenres ∧
      35 ∉ (handleGenreToggle 35 emptyFiltersState).excludedGenres) ∧
    (35 ∉ (handleGenreToggle 35 (handleGenreToggle 35 emptyFiltersState)).includedGenres ∧
      35 ∈ (handleGenreToggle 35 (handleGenreToggle 35 emptyFiltersState)).excludedGenres) ∧
    (handleGenreToggle 35 (handleGenreToggle 35 (handleGenreToggle 35
        emptyFiltersState))).includedGenres = emptyFiltersState.includedGenres ∧
    (handleGenreToggle 35 (handleGenreToggle 35 (handleGenreToggle 35
        emptyFiltersState))).excludedGenres = emptyFiltersState.excludedGenres :=
  c3_main emptyFiltersState rfl [10759, 16, 10759] emptyFiltersState 35
    (by simp [emptyFiltersState]) (by simp [emptyFiltersState])

/-! ## Page-reset behavior of the filter handlers -/

/-- A state with an active person filter, several pages in. -/
def personFilterState : AppState :=
  { emptyFiltersState with selectedPerson := some ⟨287, "Brad"⟩, page := 5 }

/-- C7 counterexample: the active-person pill handler
(`setSelectedPerson(null)` in `App.tsx`) changes the person filter field but
leaves the page at 5 instead of resetting it to 1. -/
theorem c7_counterexample :
    (removeSelectedPerson personFilterState).selectedPerson = none ∧
    personFilterState.selectedPerson ≠ none ∧
    (removeSelectedPerson personFilterState).page = 5 ∧
    (removeSelectedPerson personFilterState).page ≠ 1 := by
  refine ⟨rfl, ?_, rfl, ?_⟩
  · simp [personFilterState]
  · simp [removeSelectedPerson, personFilterState]

/-- C7 (amended): the genre toggle, clear, genre-mode toggle, numeric reset,
sort select, language select, and — in discover mode — the search and
numeric commits all set the page to 1; the person-removal pill changes the
person filter without resetting the page; the page buttons change only the
page field and do not reset it to 1. -/
theorem c7_main (cfg : FilterConfig) (mn mx : Int) (id : Int)
    (val code : String) (s : AppState)
    (hd : s.viewMode = ViewMode.discover) (hp : 1 ≤ s.page) :
    (handleGenreToggle id s).page = 1 ∧
    (clearGenres s).page = 1 ∧
    (toggleGenreMode s).page = 1 ∧
    (resetNumericFilters cfg mn mx s).page = 1 ∧
    (selectSort val s).page = 1 ∧
    (selectLanguage code s).page = 1 ∧
    (commitSearch s).page = 1 ∧
    (commitNumericFilters s).page = 1 ∧
    (removeSelectedPerson s).page = s.page ∧
    goNextPage s = { s with page := s.page + 1 } ∧
    (goNextPage s).page ≠ 1 ∧
    goPrevPage s = { s with page := max 1 (s.page - 1) } := by
  refine ⟨?_, rfl, rfl, rfl, rfl, rfl, ?_, ?_, rfl, rfl, ?_, rfl⟩
  · unfold handleGenreToggle
    split_ifs <;> rfl
  · simp [commitSearch, hd]
  · simp [commitNumericFilters, hd]
  · simp only [goNextPage]
    omega

/-- C7 witness: the amended page-reset policy at a concrete state (discover
mode, page 5, person filter active). -/
theorem c7_witness :
    (handleGenreToggle 35 personFilterState).page = 1 ∧
    (clearGenres personFilterState).page = 1 ∧
    (toggleGenreMode personFilterState).page = 1 ∧
    (resetNumericFilters {} 1900 2031 personFilterState).page = 1 ∧
    (selectSort "popularity.desc" personFilterState).page = 1 ∧
    (selectLanguage "fr" personFilterState).page = 1 ∧
    (commitSearch personFilterState).page = 1 ∧
    (commitNumericFilters personFilterState).page = 1 ∧
    (removeSelectedPerson personFilterState).page = personFilterState.page ∧
    goNextPage personFilterState =
      { personFilterState with page := personFilterState.page + 1 } ∧
    (goNextPage personFilterState).page ≠ 1 ∧
    goPrevPage personFilterState =
      { personFilterState with page := max 1 (personFilterState.page - 1) } :=
  c7_main {} 1900 2031 35 "popularity.desc" "fr" personFilterState rfl
    (by norm_num [personFilterState, emptyFiltersState])

/-! ## Buffered-threshold compensation and reconciliation -/

/-- A record with plenty of votes but a rating of 0. -/
def highVotesLowRating : TVShow :=
  { id := 1, vote_count := 200, vote_average := 0 }

/-- A record with a high rating but no votes. -/
def lowVotesHighRating : TVShow :=
  { id := 2, vote_count := 0, vote_average := 9 }

/-- C1 counterexample: with minVotes = 100 and minRating = 6, a returned
record with 200 votes and rating 0 is removed by the reconciliation pass
even though its vote count is not below ⌊100 × 0.99⌋ = 99 — the pass does
not remove exactly the records below the vote threshold. -/
theorem c1_counterexample :
    (discoverShows {} "key" 1 { minVotes := 100, minRating := 6 }
        { results := [highVotesLowRating] }).2.results = [] ∧
    ¬ (highVotesLowRating.vote_count < ((targetVotes 100 : Int) : ℚ)) := by
  constructor
  · norm_num [discoverShows, acceptShow, targetVotes, targetRating, BUFFER_FACTOR,
      highVotesLowRating, List.filter]
  · norm_num [targetVotes, BUFFER_FACTOR, highVotesLowRating]

/-- C1 (amended): for every committed minVotes V, discoverShows submits
vote_count.gte = ⌊V × 0.99⌋, and the reconciliation pass removes exactly
those returned records whose vote count is strictly below ⌊V × 0.99⌋ or
whose rating is strictly below the buffered rating threshold; in particular
for V = 100 the submitted threshold is 99, a 99-vote record meeting the
rating threshold is kept, and a 98-vote record is removed. -/
theorem c1_main (cfg : FilterConfig) (apiKey : String) (page : Int)
    (o : DiscoverOptions) (resp : TMDbResponse) (s : TVShow) :
    (discoverQuery cfg apiKey page o).vote_count_gte = ⌊o.minVotes * 0.99⌋ ∧
    (discoverShows cfg apiKey page o resp).2.results =
      resp.results.filter (acceptShow (targetVotes o.minVotes) (targetRating o.minRating)) ∧
    (acceptShow (targetVotes o.minVotes) (targetRating o.minRating) s = false ↔
      (s.vote_count < ((⌊o.minVotes * 0.99⌋ : Int) : ℚ) ∨
        s.vote_average < o.minRating * 0.99)) ∧
    targetVotes 100 = 99 ∧
    acceptShow (targetVotes 100) (targetRating 6)
      { vote_count := 99, vote_average := 6 } = true ∧
    acceptShow (targetVotes 100) (targetRating 6)
      { vote_count := 98, vote_average := 6 } = false := by
  refine ⟨rfl, rfl, ?_, ?_, ?_, ?_⟩
  · unfold acceptShow targetVotes targetRating BUFFER_FACTOR
    split_ifs with hv hr <;> simp_all
  · norm_num [targetVotes, BUFFER_FACTOR]
  · norm_num [acceptShow, targetVotes, targetRating, BUFFER_FACTOR]
  · norm_num [acceptShow, targetVotes, targetRating, BUFFER_FACTOR]

/-- C2 counterexample: with minVotes = 100 and minRating = 6, a returned
record rated 9 but with 0 votes is rejected by the reconciliation pass even
though its rating is not below 6 × 0.99 = 5.94 — rejection is not
equivalent to the rating test alone. -/
theorem c2_counterexample :
    (discoverShows {} "key" 1 { minVotes := 100, minRating := 6 }
        { results := [lowVotesHighRating] }).2.results = [] ∧
    ¬ (lowVotesHighRating.vote_average < targetRating 6) := by
  constructor
  · norm_num [discoverShows, acceptShow, targetVotes, targetRating, BUFFER_FACTOR,
      lowVotesHighRating, List.filter]
  · norm_num [targetRating, BUFFER_FACTOR, lowVotesHighRating]

/-- C2 (amended): for every committed minRating R, discoverShows submits
vote_average.gte = exactly R × 0.99 with no rounding, and a returned record
that meets the buffered vote-count threshold is rejected if and only if its
rating is strictly below R × 0.99 (a record below the vote threshold is
rejected regardless of rating); for R = 6.0 the threshold is 5.94, a record
rated 5.94 with enough votes is accepted and one rated 5.93 is rejected. -/
theorem c2_main (cfg : FilterConfig) (apiKey : String) (page : Int)
    (o : DiscoverOptions) (s : TVShow)
    (hv : ¬ (s.vote_count < ((targetVotes o.minVotes : Int) : ℚ))) :
    (discoverQuery cfg apiKey page o).vote_average_gte = o.minRating * 0.99 ∧
    (acceptShow (targetVotes o.minVotes) (targetRating o.minRating) s = false ↔
      s.vote_average < o.minRating * 0.99) ∧
    targetRating 6 = 5.94 ∧
    acceptShow (targetVotes 100) (targetRating 6)
      { vote_count := 100, vote_average := 5.94 } = true ∧
    acceptShow (targetVotes 100) (targetRating 6)
      { vote_count := 100, vote_average := 5.93 } = false := by
  refine ⟨rfl, ?_, ?_, ?_, ?_⟩
  · unfold acceptShow targetRating BUFFER_FACTOR
    simp only [if_neg hv]
    split_ifs with hr <;> simp_all [targetRating, BUFFER_FACTOR]
  · norm_num [targetRating, BUFFER_FACTOR]
  · norm_num [acceptShow, targetVotes, targetRating, BUFFER_FACTOR]
  · norm_num [acceptShow, targetVotes, targetRating, BUFFER_FACTOR]

/-- C2 witness: the amended rating-buffering property instantiated at
minVotes = 100, minRating = 6 and a record with 100 votes rated 5.94. -/
theorem c2_witness :
    (discoverQuery {} "key" 1 { minVotes := 100, minRating := 6 }).vote_average_gte
      = 6 * 0.99 ∧
    (acceptShow (targetVotes 100) (targetRating 6)
        { vote_count := (100 : ℚ), vote_average := 5.94 } = false ↔
      ((5.94 : ℚ) < 6 * 0.99)) ∧
    targetRating 6 = 5.94 ∧
    acceptShow (targetVotes 100) (targetRating 6)
      { vote_count := 100, vote_average := 5.94 } = true ∧
    acceptShow (targetVotes 100) (targetRating 6)
      { vote_count := 100, vote_average := 5.93 } = false :=
  c2_main {} "key" 1 { minVotes := 100, minRating := 6 }
    { vote_count := 100, vote_average := 5.94 }
    (by norm_num [targetVotes, BUFFER_FACTOR])

/-- C4: a non-empty included-genre list serializes into with_genres joined
with `|` when the mode is ANY/OR (or unset) and with `,` when the mode is
ALL/AND; a non-empty excluded-genre list always serializes into
without_genres joined with `,`, whatever the mode; included [1,2] gives
"1|2" under ANY and "1,2" under ALL, excluded [3] gives "3" under both. -/
theorem c4_main (cfg : FilterConfig) (apiKey : String) (page : Int)
    (o : DiscoverOptions) (hin : o.withGenres ≠ []) (hout : o.withoutGenres ≠ []) :
    (discoverQuery cfg apiKey page o).with_genres =
      some (String.intercalate
        (if o.genreMode = some GenreMode.AND then "," else "|")
        (o.withGenres.map toString)) ∧
    (discoverQuery cfg apiKey page o).without_genres =
      some (String.intercalate "," (o.withoutGenres.map toString)) ∧
    (discoverQuery cfg apiKey page
      { o with withGenres := [1, 2], genreMode := some GenreMode.OR }).with_genres
        = some "1|2" ∧
    (discoverQuery cfg apiKey page
      { o with withGenres := [1, 2], genreMode := some GenreMode.AND }).with_genres
        = some "1,2" ∧
    (discoverQuery cfg apiKey page
      { o with withoutGenres := [3], genreMode := some GenreMode.OR }).without_genres
        = some "3" ∧
    (discoverQuery cfg apiKey page
      { o with withoutGenres := [3], genreMode := some GenreMode.AND }).without_genres
        = some "3" := by
  refine ⟨?_, ?_, rfl, rfl, rfl, rfl⟩
  · simp [discoverQuery, hin]
  · simp [discoverQuery, hout]

/-- C4 witness: the join-separator property at the concrete option set with
included [1,2] (mode unset, hence the OR separator) and excluded [3]. -/
theorem c4_witness :
    (discoverQuery {} "key" 1
      { withGenres := [1, 2], withoutGenres := [3] }).with_genres = some "1|2" ∧
    (discoverQuery {} "key" 1
      { withGenres := [1, 2], withoutGenres := [3] }).without_genres = some "3" := by
  have h := c4_main {} "key" 1 { withGenres := [1, 2], withoutGenres := [3] }
    (by simp) (by simp)
  exact ⟨h.1.trans rfl, h.2.1.trans rfl⟩

/-! ## Search precedence -/

/-- A state with an active search and every other filter engaged. -/
def busySearchState : AppState :=
  { emptyFiltersState with
      includedGenres := [18, 35]
      excludedGenres := [16]
      selectedPerson := some ⟨287, "Brad"⟩
      minVotes := "500"
      minRating := "8"
      language := "fr"
      yearRange := (1990, 2000)
      debouncedFilters := ⟨500, 8, 1990, 2000⟩
      sortBy := "popularity.desc"
      page := 3
      searchQuery := "dark"
      debouncedSearchQuery := "dark" }

/-- The same search and page with every other filter left at the initial
state. -/
def cleanSearchState : AppState :=
  { emptyFiltersState with
      page := 3
      searchQuery := "dark"
      debouncedSearchQuery := "dark" }

/-- C5: with a non-empty debounced search query, the remote query produced
in discover mode is a text search carrying only the credential, the search
text and the page — identical for any two states agreeing on those three,
whatever their genre, person, numeric, year or language filters. -/
theorem c5_main (cfg : FilterConfig) (apiKey : String) (s t : AppState)
    (hk : apiKey ≠ "") (hs : s.viewMode = ViewMode.discover)
    (ht : t.viewMode = ViewMode.discover)
    (hq : s.debouncedSearchQuery ≠ "")
    (h1 : t.debouncedSearchQuery = s.debouncedSearchQuery) (h2 : t.page = s.page) :
    loadData cfg apiKey s = loadData cfg apiKey t ∧
    loadData cfg apiKey s =
      some (QuerySpec.search apiKey s.debouncedSearchQuery s.page) := by
  have hs' : loadData cfg apiKey s =
      some (QuerySpec.search apiKey s.debouncedSearchQuery s.page) := by
    simp [loadData, hk, hs, hq]
  have ht' : loadData cfg apiKey t =
      some (QuerySpec.search apiKey t.debouncedSearchQuery t.page) := by
    have hq2 : t.debouncedSearchQuery ≠ "" := by rw [h1]; exact hq
    simp [loadData, hk, ht, hq2]
  refine ⟨?_, hs'⟩
  rw [hs', ht', h1, h2]

/-- C5 witness: the fully-filtered search state and the clean search state
(same query "dark", same page 3) produce the same remote query. -/
theorem c5_witness :
    loadData {} "key" busySearchState = loadData {} "key" cleanSearchState ∧
    loadData {} "key" busySearchState =
      some (QuerySpec.search "key" busySearchState.debouncedSearchQuery
        busySearchState.page) :=
  c5_main {} "key" busySearchState cleanSearchState (by simp) rfl rfl
    (by simp [busySearchState, emptyFiltersState]) rfl rfl

/-! ## Numeric commit totality -/

/-- C6 counterexample: the commit step performs no clamping or integrality
check — the raw minVotes string "-5" commits as the negative value -5, and
the raw minRating string "10.5" commits as 10.5 > 10, violating the claimed
CommittedFilters ranges. -/
theorem c6_counterexample :
    commitNum "-5" = -5 ∧ commitNum "-5" < 0 ∧
    commitNum "10.5" = 10.5 ∧ (10 : ℚ) < commitNum "10.5" := by
  refine ⟨?_, ?_, ?_, ?_⟩
  · simp [commitNum, jsNumber, jsNumberChars, trimWs, isWs, takeDigits, digitsToNat]
  · simp [commitNum, jsNumber, jsNumberChars, trimWs, isWs, takeDigits, digitsToNat]
  · simp [commitNum, jsNumber, jsNumberChars, trimWs, isWs, takeDigits, digitsToNat]
    norm_num
  · simp [commitNum, jsNumber, jsNumberChars, trimWs, isWs, takeDigits, digitsToNat]

/-- C6 (amended): the numeric commit step is total and never raises — the
empty string and every unparsable string commit as 0, and every parsable
string commits as its parsed numeric value, unchanged: no clamping to a
non-negative integer or to the range [0, 10] takes place. -/
theorem c6_main (raw : String) (q : ℚ) :
    commitNum "" = 0 ∧
    (jsNumber raw = none → commitNum raw = 0) ∧
    (raw ≠ "" → jsNumber raw = some q → commitNum raw = q) := by
  refine ⟨rfl, ?_, ?_⟩
  · intro h
    by_cases he : raw = "" <;> simp [commitNum, he, h]
  · intro h1 h2
    simp [commitNum, h1, h2]

/-- C6 witness: the amended commit behavior at the unparsable string "abc"
(commits as 0) and the parsable string "7.5" (commits as 7.5). -/
theorem c6_witness : commitNum "abc" = 0 ∧ commitNum "7.5" = 15 / 2 :=
  ⟨(c6_main "abc" 0).2.1
      (by simp [jsNumber, jsNumberChars, trimWs, isWs, takeDigits, digitsToNat]),
   (c6_main "7.5" (15 / 2)).2.2 (by simp)
      (by simp [jsNumber, jsNumberChars, trimWs, isWs, takeDigits, digitsToNat]
          norm_num)⟩

/-! ## Watchlist insertion idempotence -/

/-- C8: watchlist insertion is idempotent per show id — when an entry with
the same id already exists the call is a no-op with no write or
notification; a second insertion of the same show never writes; the
collection grows by at most one element; and id-uniqueness is preserved. -/
theorem c8_main (l : List WatchlistItem) (show_ : TVShow) (now now2 : ℚ)
    (bh bh2 : Option ℚ) :
    ((∃ i ∈ l, i.id = show_.id) → addToWatchlist l show_ now bh = (l, false)) ∧
    addToWatchlist (addToWatchlist l show_ now bh).1 show_ now2 bh2 =
      ((addToWatchlist l show_ now bh).1, false) ∧
    (addToWatchlist l show_ now bh).1.length ≤ l.length + 1 ∧
    ((l.map WatchlistItem.id).Nodup →
      ((addToWatchlist l show_ now bh).1.map WatchlistItem.id).Nodup) := by
  by_cases hmem : l.any (fun i => i.id == show_.id)
  · refine ⟨fun _ => by simp [addToWatchlist, hmem], ?_, ?_, ?_⟩
    · simp [addToWatchlist, hmem]
    · simp [addToWatchlist, hmem]
    · intro h
      simpa [addToWatchlist, hmem] using h
  · have hnotin : ∀ i ∈ l, ¬ i.id = show_.id := by
      intro i hi
      simp only [List.any_eq_true, beq_iff_eq, not_exists, not_and] at hmem
      exact fun e => hmem i hi e
    refine ⟨?_, ?_, ?_, ?_⟩
    · rintro ⟨i, hi, hid⟩
      exact absurd hid (hnotin i hi)
    · have : (toWatchlistItem show_ now bh :: l).any (fun i => i.id == show_.id) := by
        simp [toWatchlistItem]
      simp [addToWatchlist, hmem, this]
    · simp [addToWatchlist, hmem]
    · intro h
      simp only [addToWatchlist, hmem, if_neg, Bool.false_eq_true, not_false_eq_true,
        List.map_cons]
      refine List.Nodup.cons ?_ h
      intro hcon
      simp only [toWatchlistItem, List.mem_map] at hcon
      obtain ⟨i, hi, hid⟩ := hcon
      exact hnotin i hi hid

/-- C8 witness: inserting a show whose id is already present is a no-op,
and a duplicate second insertion never writes, at a concrete two-element
watchlist. -/
theorem c8_witness :
    addToWatchlist [{ id := 7 }, { id := 9 }] { id := 7 } 1000 (some 3) =
      ([{ id := 7 }, { id := 9 }], false) ∧
    addToWatchlist
        (addToWatchlist [{ id := 9 }] { id := 7 } 1000 (some 3)).1
        { id := 7 } 2000 none =
      ((addToWatchlist [{ id := 9 }] { id := 7 } 1000 (some 3)).1, false) :=
  ⟨(c8_main [{ id := 7 }, { id := 9 }] { id := 7 } 1000 2000 (some 3) none).1
      ⟨{ id := 7 }, by simp, rfl⟩,
   (c8_main [{ id := 9 }] { id := 7 } 1000 2000 (some 3) none).2.1⟩

/-! ## Watchlist sort comparator -/

theorem jsGt_none_left (y : Option ℚ) : jsGt none y = false := by
  cases y <;> rfl

theorem jsGt_none_right (x : Option ℚ) : jsGt x none = false := by
  cases x <;> rfl

theorem jsLt_none_left (y : Option ℚ) : jsLt none y = false := by
  cases y <;> rfl

theorem jsLt_none_right (x : Option ℚ) : jsLt x none = false := by
  cases x <;> rfl

/-- Whenever either compared value is `undefined`, the comparator returns
-1, for both directions. -/
theorem watchCompareParts_none (field dir : String) (a b : WatchlistItem)
    (h : fieldValue field a = none ∨ fieldValue field b = none) :
    watchCompareParts field dir a b = -1 := by
  unfold watchCompareParts
  rcases h with h | h <;> rw [h]
  · simp [jsGt_none_left, jsLt_none_left]
  · simp [jsGt_none_right, jsLt_none_right]

/-- An item released in 1960 (a negative instant). -/
def show1960 : WatchlistItem := { id := 1, first_air_date := some "1960-01-01" }

/-- An item whose stored first-air date does not parse. -/
def showBadDate : WatchlistItem := { id := 2, first_air_date := some "garbage" }

/-- An item rated 5. -/
def ratedItem : WatchlistItem := { id := 3, vote_average := some 5 }

/-- An item with no stored rating. -/
def unratedItem : WatchlistItem := { id := 4 }

/-- The same item with its missing rating replaced by 0. -/
def zeroRatedItem : WatchlistItem := { id := 4, vote_average := some 0 }

/-- C9 counterexample: sorting by first-air date ascending, the comparator
places the unparseable-date item after the 1960 item (it is treated as the
epoch instant 0, not as the earliest instant); and sorting by rating
ascending, the comparator returns -1 against a missing rating but 1 when
that missing rating is replaced by 0 — a missing rating is not compared as
if it were 0. -/
theorem c9_counterexample :
    watchCompareParts "first_air_date" "asc" showBadDate show1960 = 1 ∧
    watchCompareParts "first_air_date" "asc" show1960 showBadDate = -1 ∧
    watchCompareParts "vote_average" "asc" ratedItem unratedItem = -1 ∧
    watchCompareParts "vote_average" "asc" ratedItem zeroRatedItem = 1 := by
  refine ⟨?_, ?_, ?_, ?_⟩ <;>
    simp [watchCompareParts, fieldValue, dateMs, parseDateMs, splitDashAux,
      digitsToNat, daysInMonth, isLeap, daysFromCivil, jsGt, jsLt, show1960,
      showBadDate, ratedItem, unratedItem, zeroRatedItem]

/-- C9 (amended): for the addedAt, bingeHours and first-air-date sort
fields the compared value is total, with a missing value — and an
unparseable or missing date — compared as 0 (for dates this is the epoch
instant, later than any pre-1970 date, not the earliest instant); for the
rating, vote-count and popularity fields a missing value makes both order
tests false, so the comparator returns -1 regardless of direction and of
the other item's value. -/
theorem c9_main (dir : String) (a b : WatchlistItem) (s : String)
    (hna : a.vote_average = none) (hnc : a.vote_count = none)
    (hnp : a.popularity = none) (hdate : parseDateMs s = none)
    (hfa : a.first_air_date = none ∨ a.first_air_date = some s) :
    fieldValue "addedAt" a = some (a.addedAt.getD 0) ∧
    fieldValue "bingeHours" a = some (a.bingeHours.getD 0) ∧
    fieldValue "first_air_date" a = some ((dateMs a.first_air_date).getD 0) ∧
    fieldValue "first_air_date" a = some 0 ∧
    watchCompareParts "vote_average" dir a b = -1 ∧
    watchCompareParts "vote_average" dir b a = -1 ∧
    watchCompareParts "vote_count" dir a b = -1 ∧
    watchCompareParts "vote_count" dir b a = -1 ∧
    watchCompareParts "popularity" dir a b = -1 ∧
    watchCompareParts "popularity" dir b a = -1 := by
  have hva : fieldValue "vote_average" a = none := by simp [fieldValue, hna]
  have hvc : fieldValue "vote_count" a = none := by simp [fieldValue, hnc]
  have hvp : fieldValue "popularity" a = none := by simp [fieldValue, hnp]
  refine ⟨rfl, rfl, rfl, ?_,
    watchCompareParts_none _ _ _ _ (Or.inl hva),
    watchCompareParts_none _ _ _ _ (Or.inr hva),
    watchCompareParts_none _ _ _ _ (Or.inl hvc),
    watchCompareParts_none _ _ _ _ (Or.inr hvc),
    watchCompareParts_none _ _ _ _ (Or.inl hvp),
    watchCompareParts_none _ _ _ _ (Or.inr hvp)⟩
  rcases hfa with h | h <;> simp [fieldValue, dateMs, h, hdate]

/-- C9 witness: the amended defaulting behavior at a concrete pair — an
item with no stored numeric fields and an unparseable date against the
rated item — for the descending direction. -/
theorem c9_witness :
    fieldValue "addedAt" showBadDate = some (showBadDate.addedAt.getD 0) ∧
    fieldValue "bingeHours" showBadDate = some (showBadDate.bingeHours.getD 0) ∧
    fieldValue "first_air_date" showBadDate =
      some ((dateMs showBadDate.first_air_date).getD 0) ∧
    fieldValue "first_air_date" showBadDate = some 0 ∧
    watchCompareParts "vote_average" "desc" showBadDate ratedItem = -1 ∧
    watchCompareParts "vote_average" "desc" ratedItem showBadDate = -1 ∧
    watchCompareParts "vote_count" "desc" showBadDate ratedItem = -1 ∧
    watchCompareParts "vote_count" "desc" ratedItem showBadDate = -1 ∧
    watchCompareParts "popularity" "desc" showBadDate ratedItem = -1 ∧
    watchCompareParts "popularity" "desc" ratedItem showBadDate = -1 :=
  c9_main "desc" showBadDate ratedItem "garbage" rfl rfl rfl
    (by simp [parseDateMs, splitDashAux, digitsToNat, daysInMonth, isLeap])
    (Or.inr rfl)

/-! ## Search results bypass the reconciler -/

/-- C10: `searchShows` returns the upstream response unmodified — in
particular its results list — while the vote/rating acceptance filter is
applied on the discovery path only; so a search-mode record below any
threshold is still displayed. -/
theorem c10_main (apiKey query : String) (page : Int) (resp : TMDbResponse)
    (cfg : FilterConfig) (key2 : String) (page2 : Int) (o : DiscoverOptions) :
    searchShows apiKey query page resp = resp ∧
    (searchShows apiKey query page resp).results = resp.results ∧
    (discoverShows cfg key2 page2 o resp).2.results =
      resp.results.filter
        (acceptShow (targetVotes o.minVotes) (targetRating o.minRating)) :=
  ⟨rfl, rfl, rfl⟩

end CultivatedTV
